import Mathlib

/-! Shallow embedding of src/lib/indicator_sound_switcher/prefs.py: the
preferences dialog of a sound-device-switching indicator applet.  Widget
state is modelled by records, Gtk signal handlers and widget calls by
state-transition functions on a `Dialog` state, and the externally
observable effects on the indicator (writes to `indicator.config` and
calls to `indicator.on_refresh`) by an event trace appended to the state. -/

namespace SoundSwitcher

/-- Modelled from the spec: persisted configuration storage
(`indicator.config`) is an externally-owned key-value settings object;
only Boolean values are stored by the code at hand. -/
structure Config where
  entries : List (String × Bool)
deriving DecidableEq

/-- Modelled from the spec: `config[key, default]` returns the stored value
for `key`, or `default` when the key is unset. -/
def Config.get (c : Config) (key : String) (dflt : Bool) : Bool :=
  match c.entries.find? (fun e => e.1 == key) with
  | some e => e.2
  | none => dflt

/-- Modelled from the spec: `config[key] = value` stores `value` under `key`,
replacing any previous value. -/
def Config.set (c : Config) (key : String) (v : Bool) : Config :=
  ⟨(key, v) :: c.entries.filter (fun e => e.1 != key)⟩

/-- Externally observable effect of the dialog on the indicator object:
a write `indicator.config[key] = value`, or a call to
`indicator.on_refresh()`. -/
inductive Event where
  | configWrite (key : String) (value : Bool)
  | refresh
deriving DecidableEq

/-- A sound card port, owned by the audio backend (out of scope of the
code at hand).  `get_display_name` models the externally defined accessor
`port.get_display_name()` as an abstract string field. -/
structure Port where
  name : String
  display_name : String
  get_display_name : String
deriving DecidableEq

/-- A sound card, owned by the audio backend.  `ports` is the mapping
`card.ports` in its iteration order; `get_display_name` models the
externally defined accessor `card.get_display_name()`. -/
structure Card where
  name : String
  display_name : String
  get_display_name : String
  ports : List (String × Port)
deriving DecidableEq

/-- Widget state of `GeneralPage`: the two switches plus the
`is_initialised` flag inherited from `BasePage`. -/
structure GeneralPage where
  is_initialised : Bool
  switch_inputs : Bool
  switch_outputs : Bool
deriving DecidableEq

/-- `GeneralPage.__init__`: both `Gtk.Switch` widgets start inactive and
the page starts uninitialised (`BasePage.__init__`). -/
def GeneralPage.new : GeneralPage :=
  { is_initialised := false, switch_inputs := false, switch_outputs := false }

/-- A row of the devices list box: it carries a reference to its card
(`row.card = card`) and shows two labels, built in `DevicesPage.initialise`
from `card.get_display_name()` and `card.name`. -/
structure DevRow where
  card : Card
  lbl_title : String
  lbl_name : String
deriving DecidableEq

/-- A row of the ports list box: it carries a reference to its port
(`port_row.port = port`) and shows two labels, built in
`DevicesPage.update_dev_props_widgets` from `port.get_display_name()` and
`port.name`. -/
structure PortRow where
  port : Port
  lbl_title : String
  lbl_name : String
deriving DecidableEq

/-- Loop body of `DevicesPage.initialise`: the list box row added for one
card of `indicator.cards`. -/
def mkDevRow (card : Card) : DevRow :=
  { card := card, lbl_title := card.get_display_name, lbl_name := card.name }

/-- Loop body of `DevicesPage.update_dev_props_widgets`: the list box row
added for one port of the selected card. -/
def mkPortRow (port : Port) : PortRow :=
  { port := port, lbl_title := port.get_display_name, lbl_name := port.name }

/-- Widget state of `DevicesPage`: the two list boxes with their current
selections, the placeholder labels and props boxes with their visibility,
the entries, the port switches and the profile dropdown, plus the
`is_initialised` flag inherited from `BasePage`. -/
structure DevicesPage where
  is_initialised : Bool
  listbox_devices : List DevRow
  selected_device : Option Nat
  listbox_ports : List PortRow
  selected_port : Option Nat
  lbl_dev_props_placeholder_visible : Bool
  box_dev_props_visible : Bool
  lbl_port_props_placeholder_visible : Bool
  box_port_props_visible : Bool
  entry_dev_name : String
  entry_port_name : String
  switch_port_visible : Bool
  switch_port_always_avail : Bool
  cbox_port_pref_profile : Option String
deriving DecidableEq

/-- `DevicesPage.__init__`: empty list boxes, nothing selected, empty
entries, inactive switches; every widget is visible after the dialog
constructor runs `show_all()`. -/
def DevicesPage.new : DevicesPage :=
  { is_initialised := false
    listbox_devices := []
    selected_device := none
    listbox_ports := []
    selected_port := none
    lbl_dev_props_placeholder_visible := true
    box_dev_props_visible := true
    lbl_port_props_placeholder_visible := true
    box_port_props_visible := true
    entry_dev_name := ""
    entry_port_name := ""
    switch_port_visible := false
    switch_port_always_avail := false
    cbox_port_pref_profile := none }

/-- `listbox.get_selected_row()` on the devices list box: `none` models the
Python `None`; an out-of-range stored index also yields no row. -/
def DevicesPage.get_selected_dev_row (p : DevicesPage) : Option DevRow :=
  p.selected_device.bind fun i => p.listbox_devices.get? i

/-- `listbox.get_selected_row()` on the ports list box. -/
def DevicesPage.get_selected_port_row (p : DevicesPage) : Option PortRow :=
  p.selected_port.bind fun i => p.listbox_ports.get? i

/-- `DevicesPage.update_dev_props_widgets`: read the selected device row,
remove every row of the ports list box (which clears any port selection),
then either show the placeholder and hide the props box (no selection), or
fill the name entry from `row.card.display_name`, repopulate the ports
list box from `row.card.ports`, show the props box and hide the
placeholder. -/
def DevicesPage.update_dev_props_widgets (p : DevicesPage) : DevicesPage :=
  let row := p.get_selected_dev_row
  let p := { p with listbox_ports := [], selected_port := none }
  match row with
  | none =>
    { p with lbl_dev_props_placeholder_visible := true
             box_dev_props_visible := false }
  | some r =>
    { p with entry_dev_name := r.card.display_name
             listbox_ports := r.card.ports.map fun np => mkPortRow np.2
             box_dev_props_visible := true
             lbl_dev_props_placeholder_visible := false }

/-- `DevicesPage.update_port_props_widgets`: either show the placeholder
and hide the props box (no selected port row), or fill the name entry from
`row.port.display_name`, show the props box and hide the placeholder. -/
def DevicesPage.update_port_props_widgets (p : DevicesPage) : DevicesPage :=
  match p.get_selected_port_row with
  | none =>
    { p with lbl_port_props_placeholder_visible := true
             box_port_props_visible := false }
  | some r =>
    { p with entry_port_name := r.port.display_name
             box_port_props_visible := true
             lbl_port_props_placeholder_visible := false }

/-- `DevicesPage.initialise`: append one row per entry of
`indicator.cards`, in iteration order, to the devices list box; then
`show_all()` (every tracked widget becomes visible) and update the device
and port props widgets. -/
def DevicesPage.initialise (p : DevicesPage) (cards : List (Nat × Card)) :
    DevicesPage :=
  let p := cards.foldl
    (fun q ic => { q with listbox_devices := q.listbox_devices ++ [mkDevRow ic.2] }) p
  let p := { p with lbl_dev_props_placeholder_visible := true
                    box_dev_props_visible := true
                    lbl_port_props_placeholder_visible := true
                    box_port_props_visible := true }
  let p := p.update_dev_props_widgets
  p.update_port_props_widgets

/-- `BasePage.on_activate` as inherited by `DevicesPage`: run
`initialise` and set `is_initialised` on the first activation only. -/
def DevicesPage.on_activate (p : DevicesPage) (cards : List (Nat × Card)) :
    DevicesPage :=
  if p.is_initialised then p
  else { p.initialise cards with is_initialised := true }

/-- The two notebook pages, in a form the notebook model can list. -/
inductive PageId where
  | general
  | devices
deriving DecidableEq

/-- Title passed by `GeneralPage.__init__` to `BasePage.__init__`
(gettext is modelled as the identity). -/
def GeneralPage.title : String := "_General"

/-- Title passed by `DevicesPage.__init__` to `BasePage.__init__`. -/
def DevicesPage.title : String := "_Devices"

/-- `BasePage.title` of a page. -/
def page_title : PageId → String
  | .general => GeneralPage.title
  | .devices => DevicesPage.title

/-- `BasePage.get_label_widget`: a mnemonic label created from the page
title, modelled as the string it displays. -/
def get_label_widget (p : PageId) : String := page_title p

/-- `MainNotebook`: the ordered list of its pages, each with the label
widget it was appended with. -/
structure MainNotebook where
  pages : List (PageId × String)
deriving DecidableEq

/-- `Gtk.Notebook.append_page`: appends a page with its label. -/
def MainNotebook.append_page (nb : MainNotebook) (page : PageId)
    (label : String) : MainNotebook :=
  { pages := nb.pages ++ [(page, label)] }

/-- `MainNotebook._add_page`: append the page labelled by its
`get_label_widget()`. -/
def MainNotebook.add_page (nb : MainNotebook) (page : PageId) : MainNotebook :=
  nb.append_page page (get_label_widget page)

/-- `MainNotebook.__init__`: starts empty, then adds the general page and
the devices page, in this order. -/
def MainNotebook.new : MainNotebook :=
  ((MainNotebook.mk []).add_page PageId.general).add_page PageId.devices

/-- The whole dialog state: the externally-owned indicator data (`config`
and `cards`), the widget state of both pages, the trace of effects on the
indicator, and the ghost history of pages that have been displayed (each
display emits the switch-page signal). -/
structure Dialog where
  config : Config
  cards : List (Nat × Card)
  general : GeneralPage
  devices : DevicesPage
  trace : List Event
  displayed : List PageId
deriving DecidableEq

/-- `PreferencesDialog.__init__`: builds the notebook with both pages over
the given indicator; no page is activated yet and nothing has been written
to the indicator. -/
def PreferencesDialog.new (config : Config) (cards : List (Nat × Card)) :
    Dialog :=
  { config := config, cards := cards, general := GeneralPage.new
    devices := DevicesPage.new, trace := [], displayed := [] }

/-- `GeneralPage.on_switch_inputs_set`: returns immediately while the page
is not initialised; otherwise writes the current active state of the
inputs switch to `config["show_inputs"]` and then calls
`indicator.on_refresh()`. -/
def on_switch_inputs_set (d : Dialog) : Dialog :=
  if d.general.is_initialised = false then d
  else
    { d with config := d.config.set "show_inputs" d.general.switch_inputs
             trace := d.trace ++
               [Event.configWrite "show_inputs" d.general.switch_inputs,
                Event.refresh] }

/-- `GeneralPage.on_switch_outputs_set`: as for the inputs switch, with
the key `"show_outputs"`. -/
def on_switch_outputs_set (d : Dialog) : Dialog :=
  if d.general.is_initialised = false then d
  else
    { d with config := d.config.set "show_outputs" d.general.switch_outputs
             trace := d.trace ++
               [Event.configWrite "show_outputs" d.general.switch_outputs,
                Event.refresh] }

/-- Setting the inputs switch (by the user toggling it, or by
`set_active` in `GeneralPage.initialise`): the switch state changes and
Gtk emits the state-set signal, invoking the connected handler. -/
def switch_inputs_set_active (d : Dialog) (b : Bool) : Dialog :=
  on_switch_inputs_set { d with general := { d.general with switch_inputs := b } }

/-- Setting the outputs switch; Gtk emits state-set, invoking the
connected handler. -/
def switch_outputs_set_active (d : Dialog) (b : Bool) : Dialog :=
  on_switch_outputs_set { d with general := { d.general with switch_outputs := b } }

/-- `GeneralPage.initialise`: set the inputs switch active state from
`config["show_inputs", True]`, then the outputs switch from
`config["show_outputs", True]` (the second read sees the config as left
by the first `set_active`). -/
def GeneralPage.initialise (d : Dialog) : Dialog :=
  let d1 := switch_inputs_set_active d (d.config.get "show_inputs" true)
  switch_outputs_set_active d1 (d1.config.get "show_outputs" true)

/-- `BasePage.on_activate` as inherited by `GeneralPage`: run
`initialise` and set `is_initialised` on the first activation only. -/
def GeneralPage.on_activate (d : Dialog) : Dialog :=
  if d.general.is_initialised then d
  else
    let d2 := GeneralPage.initialise d
    { d2 with general := { d2.general with is_initialised := true } }

/-- `MainNotebook.on_switch_page`: the newly shown page is recorded as
displayed and its `on_activate` runs. -/
def on_switch_page (d : Dialog) (p : PageId) : Dialog :=
  let d := { d with displayed := d.displayed ++ [p] }
  match p with
  | .general => GeneralPage.on_activate d
  | .devices => { d with devices := d.devices.on_activate d.cards }

/-- A user interaction with the dialog.  The first five have connected
signal handlers in the source; the last five interact with widgets whose
handlers are left unconnected (the TODO comments in
`_add_port_props_widgets`) or never wired (the device name entry), so they
only change the widget itself. -/
inductive Action where
  | switch_page (p : PageId)
  | set_switch_inputs (b : Bool)
  | set_switch_outputs (b : Bool)
  | select_device_row (r : Option Nat)
  | select_port_row (r : Option Nat)
  | set_switch_port_visible (b : Bool)
  | set_switch_port_always_avail (b : Bool)
  | set_entry_port_name (s : String)
  | set_entry_dev_name (s : String)
  | select_pref_profile (s : Option String)
deriving DecidableEq

/-- One step of the dialog: the action happens and any connected signal
handler runs (`on_switch_page`, the two state-set handlers,
`on_device_row_selected`, `on_port_row_selected`). -/
def step (d : Dialog) : Action → Dialog
  | .switch_page p => on_switch_page d p
  | .set_switch_inputs b => switch_inputs_set_active d b
  | .set_switch_outputs b => switch_outputs_set_active d b
  | .select_device_row r =>
    { d with devices :=
        DevicesPage.update_dev_props_widgets { d.devices with selected_device := r } }
  | .select_port_row r =>
    { d with devices :=
        DevicesPage.update_port_props_widgets { d.devices with selected_port := r } }
  | .set_switch_port_visible b =>
    { d with devices := { d.devices with switch_port_visible := b } }
  | .set_switch_port_always_avail b =>
    { d with devices := { d.devices with switch_port_always_avail := b } }
  | .set_entry_port_name s =>
    { d with devices := { d.devices with entry_port_name := s } }
  | .set_entry_dev_name s =>
    { d with devices := { d.devices with entry_dev_name := s } }
  | .select_pref_profile s =>
    { d with devices := { d.devices with cbox_port_pref_profile := s } }

/-- Run a sequence of user interactions. -/
def run (d : Dialog) : List Action → Dialog
  | [] => d
  | a :: rest => run (step d a) rest

/-- A trace event is allowed when it is a refresh call or a write to one
of the two keys the preferences dialog ever writes. -/
def writeKeyOK : Event → Bool
  | .configWrite k _ => k == "show_inputs" || k == "show_outputs"
  | .refresh => true

/-- Whether the given page object has `is_initialised` set. -/
def page_initialised (d : Dialog) : PageId → Bool
  | .general => d.general.is_initialised
  | .devices => d.devices.is_initialised

/-- A concrete port, used to evaluate the model on explicit inputs. -/
def samplePort : Port :=
  { name := "analog-output", display_name := "Speakers"
    get_display_name := "Speakers" }

/-- A concrete card with one port. -/
def sampleCard : Card :=
  { name := "alsa_card.pci", display_name := "Built-in Audio"
    get_display_name := "Built-in Audio"
    ports := [("analog-output", samplePort)] }

/-- A freshly constructed dialog over an indicator with one stored config
key and one card. -/
def sampleDialog : Dialog :=
  PreferencesDialog.new ⟨[("show_inputs", false)]⟩ [(0, sampleCard)]

/-- The sample dialog after its general page has been activated once. -/
def sampleDialogInit : Dialog := GeneralPage.on_activate sampleDialog

/-- The devices list box row built for the sample card. -/
def sampleDevRow : DevRow := mkDevRow sampleCard

/-- A devices page whose list box holds the sample row, with that row
selected. -/
def sampleDevPageSel : DevicesPage :=
  { DevicesPage.new with listbox_devices := [sampleDevRow], selected_device := some 0 }

/-- A freshly constructed dialog over an indicator with an empty config
and no cards. -/
def emptyDialog : Dialog := PreferencesDialog.new ⟨[]⟩ []

/-- A concrete interaction sequence exercising both pages, a toggle and a
row selection. -/
def sampleActs : List Action :=
  [Action.switch_page PageId.general, Action.set_switch_inputs true,
   Action.switch_page PageId.devices, Action.select_device_row (some 0),
   Action.select_port_row (some 0), Action.set_switch_port_visible true]

theorem on_switch_inputs_set_of_not_init (d : Dialog)
    (h : d.general.is_initialised = false) : on_switch_inputs_set d = d := by
  simp [on_switch_inputs_set, h]

theorem on_switch_outputs_set_of_not_init (d : Dialog)
    (h : d.general.is_initialised = false) : on_switch_outputs_set d = d := by
  simp [on_switch_outputs_set, h]

theorem switch_inputs_set_active_of_not_init (d : Dialog) (b : Bool)
    (h : d.general.is_initialised = false) :
    switch_inputs_set_active d b
      = { d with general := { d.general with switch_inputs := b } } := by
  unfold switch_inputs_set_active
  exact on_switch_inputs_set_of_not_init _ (by simpa using h)

theorem switch_outputs_set_active_of_not_init (d : Dialog) (b : Bool)
    (h : d.general.is_initialised = false) :
    switch_outputs_set_active d b
      = { d with general := { d.general with switch_outputs := b } } := by
  unfold switch_outputs_set_active
  exact on_switch_outputs_set_of_not_init _ (by simpa using h)

theorem general_initialise_of_not_init (d : Dialog)
    (h : d.general.is_initialised = false) :
    GeneralPage.initialise d
      = { d with general :=
          { d.general with
              switch_inputs := d.config.get "show_inputs" true
              switch_outputs := d.config.get "show_outputs" true } } := by
  unfold GeneralPage.initialise
  rw [switch_inputs_set_active_of_not_init _ _ h]
  rw [switch_outputs_set_active_of_not_init _ _ (by simpa using h)]

theorem general_on_activate_of_init (d : Dialog)
    (h : d.general.is_initialised = true) : GeneralPage.on_activate d = d := by
  simp [GeneralPage.on_activate, h]

theorem general_on_activate_of_not_init (d : Dialog)
    (h : d.general.is_initialised = false) :
    GeneralPage.on_activate d
      = { d with general :=
          { is_initialised := true
            switch_inputs := d.config.get "show_inputs" true
            switch_outputs := d.config.get "show_outputs" true } } := by
  unfold GeneralPage.on_activate
  rw [if_neg (by simp [h]), general_initialise_of_not_init _ h]

theorem general_on_activate_init (d : Dialog) :
    (GeneralPage.on_activate d).general.is_initialised = true := by
  cases hb : d.general.is_initialised
  · rw [general_on_activate_of_not_init _ hb]
  · rw [general_on_activate_of_init _ hb]; exact hb

theorem general_on_activate_frame (d : Dialog) :
    (GeneralPage.on_activate d).config = d.config ∧
    (GeneralPage.on_activate d).trace = d.trace ∧
    (GeneralPage.on_activate d).cards = d.cards ∧
    (GeneralPage.on_activate d).devices = d.devices ∧
    (GeneralPage.on_activate d).displayed = d.displayed := by
  cases hb : d.general.is_initialised
  · rw [general_on_activate_of_not_init _ hb]; exact ⟨rfl, rfl, rfl, rfl, rfl⟩
  · rw [general_on_activate_of_init _ hb]; exact ⟨rfl, rfl, rfl, rfl, rfl⟩

theorem update_dev_props_frame (p : DevicesPage) :
    (p.update_dev_props_widgets).is_initialised = p.is_initialised ∧
    (p.update_dev_props_widgets).listbox_devices = p.listbox_devices ∧
    (p.update_dev_props_widgets).selected_device = p.selected_device := by
  cases hr : p.get_selected_dev_row <;>
    simp [DevicesPage.update_dev_props_widgets, hr]

theorem update_port_props_frame (p : DevicesPage) :
    (p.update_port_props_widgets).is_initialised = p.is_initialised ∧
    (p.update_port_props_widgets).listbox_devices = p.listbox_devices ∧
    (p.update_port_props_widgets).listbox_ports = p.listbox_ports ∧
    (p.update_port_props_widgets).selected_device = p.selected_device ∧
    (p.update_port_props_widgets).selected_port = p.selected_port := by
  cases hr : p.get_selected_port_row <;>
    simp [DevicesPage.update_port_props_widgets, hr]

theorem initialise_fold_listbox (cards : List (Nat × Card)) (p : DevicesPage) :
    (cards.foldl
        (fun q ic => { q with listbox_devices := q.listbox_devices ++ [mkDevRow ic.2] })
        p).listbox_devices
      = p.listbox_devices ++ cards.map (fun ic => mkDevRow ic.2) := by
  induction cards generalizing p with
  | nil => simp
  | cons c cs ih => simp [List.foldl_cons, ih]

theorem initialise_fold_init (cards : List (Nat × Card)) (p : DevicesPage) :
    (cards.foldl
        (fun q ic => { q with listbox_devices := q.listbox_devices ++ [mkDevRow ic.2] })
        p).is_initialised = p.is_initialised := by
  induction cards generalizing p with
  | nil => rfl
  | cons c cs ih => simp [List.foldl_cons, ih]

theorem devices_initialise_listbox (p : DevicesPage) (cards : List (Nat × Card)) :
    (p.initialise cards).listbox_devices
      = p.listbox_devices ++ cards.map (fun ic => mkDevRow ic.2) := by
  unfold DevicesPage.initialise
  rw [(update_port_props_frame _).2.1, (update_dev_props_frame _).2.1]
  exact initialise_fold_listbox cards p

theorem devices_initialise_init (p : DevicesPage) (cards : List (Nat × Card)) :
    (p.initialise cards).is_initialised = p.is_initialised := by
  unfold DevicesPage.initialise
  rw [(update_port_props_frame _).1, (update_dev_props_frame _).1]
  exact initialise_fold_init cards p

theorem devices_on_activate_of_init (p : DevicesPage) (cards : List (Nat × Card))
    (h : p.is_initialised = true) : p.on_activate cards = p := by
  simp [DevicesPage.on_activate, h]

theorem devices_on_activate_init (p : DevicesPage) (cards : List (Nat × Card)) :
    (p.on_activate cards).is_initialised = true := by
  unfold DevicesPage.on_activate
  cases hb : p.is_initialised
  · simp [hb]
  · simp [hb]

theorem iterate_succ_of_idem {α : Type} (f : α → α)
    (hf : ∀ y, f (f y) = f y) (x : α) (n : ℕ) : f^[n + 1] x = f x := by
  induction n with
  | zero => simp
  | succ n ih => rw [Function.iterate_succ_apply', ih, hf]

theorem switch_inputs_set_active_frame (d : Dialog) (b : Bool) :
    (switch_inputs_set_active d b).general.is_initialised = d.general.is_initialised ∧
    (switch_inputs_set_active d b).general.switch_inputs = b ∧
    (switch_inputs_set_active d b).cards = d.cards ∧
    (switch_inputs_set_active d b).devices = d.devices ∧
    (switch_inputs_set_active d b).displayed = d.displayed := by
  unfold switch_inputs_set_active on_switch_inputs_set
  split <;> simp

theorem switch_outputs_set_active_frame (d : Dialog) (b : Bool) :
    (switch_outputs_set_active d b).general.is_initialised = d.general.is_initialised ∧
    (switch_outputs_set_active d b).general.switch_outputs = b ∧
    (switch_outputs_set_active d b).cards = d.cards ∧
    (switch_outputs_set_active d b).devices = d.devices ∧
    (switch_outputs_set_active d b).displayed = d.displayed := by
  unfold switch_outputs_set_active on_switch_outputs_set
  split <;> simp

theorem switch_inputs_set_active_trace (d : Dialog) (b : Bool) :
    (switch_inputs_set_active d b).trace = d.trace ∨
    (switch_inputs_set_active d b).trace
      = d.trace ++ [Event.configWrite "show_inputs" b, Event.refresh] := by
  unfold switch_inputs_set_active on_switch_inputs_set
  split
  · left; rfl
  · right; rfl

theorem switch_outputs_set_active_trace (d : Dialog) (b : Bool) :
    (switch_outputs_set_active d b).trace = d.trace ∨
    (switch_outputs_set_active d b).trace
      = d.trace ++ [Event.configWrite "show_outputs" b, Event.refresh] := by
  unfold switch_outputs_set_active on_switch_outputs_set
  split
  · left; rfl
  · right; rfl

theorem writeKeyOK_show_inputs (b : Bool) :
    writeKeyOK (Event.configWrite "show_inputs" b) = true := rfl

theorem writeKeyOK_show_outputs (b : Bool) :
    writeKeyOK (Event.configWrite "show_outputs" b) = true := rfl

theorem on_switch_page_frame (d : Dialog) (p : PageId) :
    (on_switch_page d p).config = d.config ∧
    (on_switch_page d p).cards = d.cards ∧
    (on_switch_page d p).trace = d.trace ∧
    (on_switch_page d p).displayed = d.displayed ++ [p] ∧
    page_initialised (on_switch_page d p) p = true := by
  cases p with
  | general =>
    obtain ⟨hc, ht, hk, hd, hs⟩ := general_on_activate_frame
      { d with displayed := d.displayed ++ [PageId.general] }
    exact ⟨hc, hk, ht, hs, general_on_activate_init _⟩
  | devices =>
    exact ⟨rfl, rfl, rfl, rfl, devices_on_activate_init _ _⟩

theorem step_cards_eq (d : Dialog) (a : Action) : (step d a).cards = d.cards := by
  cases a with
  | switch_page p => exact (on_switch_page_frame d p).2.1
  | set_switch_inputs b => exact (switch_inputs_set_active_frame d b).2.2.1
  | set_switch_outputs b => exact (switch_outputs_set_active_frame d b).2.2.1
  | select_device_row r => rfl
  | select_port_row r => rfl
  | set_switch_port_visible b => rfl
  | set_switch_port_always_avail b => rfl
  | set_entry_port_name s => rfl
  | set_entry_dev_name s => rfl
  | select_pref_profile s => rfl

theorem run_cards_eq (acts : List Action) :
    ∀ d : Dialog, (run d acts).cards = d.cards := by
  induction acts with
  | nil => intro d; rfl
  | cons a rest ih => intro d; exact (ih (step d a)).trans (step_cards_eq d a)

theorem step_trace_writeKeyOK (d : Dialog) (a : Action)
    (h : ∀ e ∈ d.trace, writeKeyOK e = true) :
    ∀ e ∈ (step d a).trace, writeKeyOK e = true := by
  cases a with
  | switch_page p =>
    intro e he
    rw [show (step d (Action.switch_page p)).trace = d.trace from
      (on_switch_page_frame d p).2.2.1] at he
    exact h e he
  | set_switch_inputs b =>
    intro e he
    rcases switch_inputs_set_active_trace d b with ht | ht <;>
      rw [show (step d (Action.set_switch_inputs b)).trace = _ from ht] at he
    · exact h e he
    · rcases List.mem_append.1 he with h1 | h2
      · exact h e h1
      · rcases by simpa using h2 with rfl | rfl
        · exact writeKeyOK_show_inputs b
        · rfl
  | set_switch_outputs b =>
    intro e he
    rcases switch_outputs_set_active_trace d b with ht | ht <;>
      rw [show (step d (Action.set_switch_outputs b)).trace = _ from ht] at he
    · exact h e he
    · rcases List.mem_append.1 he with h1 | h2
      · exact h e h1
      · rcases by simpa using h2 with rfl | rfl
        · exact writeKeyOK_show_outputs b
        · rfl
  | select_device_row r => exact h
  | select_port_row r => exact h
  | set_switch_port_visible b => exact h
  | set_switch_port_always_avail b => exact h
  | set_entry_port_name s => exact h
  | set_entry_dev_name s => exact h
  | select_pref_profile s => exact h

theorem run_trace_writeKeyOK (acts : List Action) :
    ∀ d : Dialog, (∀ e ∈ d.trace, writeKeyOK e = true) →
      ∀ e ∈ (run d acts).trace, writeKeyOK e = true := by
  induction acts with
  | nil => intro d h; exact h
  | cons a rest ih => intro d h; exact ih (step d a) (step_trace_writeKeyOK d a h)

theorem step_page_init_mono (d : Dialog) (a : Action) (q : PageId)
    (h : page_initialised d q = true) : page_initialised (step d a) q = true := by
  cases a with
  | switch_page p =>
    cases p with
    | general =>
      cases q with
      | general => exact (on_switch_page_frame d PageId.general).2.2.2.2
      | devices =>
        exact (congrArg DevicesPage.is_initialised
          (general_on_activate_frame
            { d with displayed := d.displayed ++ [PageId.general] }).2.2.2.1).trans h
    | devices =>
      cases q with
      | general => exact h
      | devices => exact (on_switch_page_frame d PageId.devices).2.2.2.2
  | set_switch_inputs b =>
    cases q with
    | general => exact ((switch_inputs_set_active_frame d b).1).trans h
    | devices =>
      exact (congrArg DevicesPage.is_initialised
        (switch_inputs_set_active_frame d b).2.2.2.1).trans h
  | set_switch_outputs b =>
    cases q with
    | general => exact ((switch_outputs_set_active_frame d b).1).trans h
    | devices =>
      exact (congrArg DevicesPage.is_initialised
        (switch_outputs_set_active_frame d b).2.2.2.1).trans h
  | select_device_row r =>
    cases q with
    | general => exact h
    | devices => exact ((update_dev_props_frame _).1).trans h
  | select_port_row r =>
    cases q with
    | general => exact h
    | devices => exact ((update_port_props_frame _).1).trans h
  | set_switch_port_visible b => cases q <;> exact h
  | set_switch_port_always_avail b => cases q <;> exact h
  | set_entry_port_name s => cases q <;> exact h
  | set_entry_dev_name s => cases q <;> exact h
  | select_pref_profile s => cases q <;> exact h

theorem step_displayed_invariant (d : Dialog) (a : Action)
    (h : ∀ q ∈ d.displayed, page_initialised d q = true) :
    ∀ q ∈ (step d a).displayed, page_initialised (step d a) q = true := by
  cases a with
  | switch_page p =>
    intro q hq
    rw [show (step d (Action.switch_page p)).displayed = d.displayed ++ [p] from
      (on_switch_page_frame d p).2.2.2.1] at hq
    rcases List.mem_append.1 hq with h1 | h2
    · exact step_page_init_mono d _ q (h q h1)
    · have hqp : q = p := by simpa using h2
      subst hqp
      exact (on_switch_page_frame d q).2.2.2.2
  | set_switch_inputs b =>
    intro q hq
    rw [show (step d (Action.set_switch_inputs b)).displayed = d.displayed from
      (switch_inputs_set_active_frame d b).2.2.2.2] at hq
    exact step_page_init_mono d _ q (h q hq)
  | set_switch_outputs b =>
    intro q hq
    rw [show (step d (Action.set_switch_outputs b)).displayed = d.displayed from
      (switch_outputs_set_active_frame d b).2.2.2.2] at hq
    exact step_page_init_mono d _ q (h q hq)
  | select_device_row r =>
    intro q hq
    exact step_page_init_mono d _ q (h q hq)
  | select_port_row r =>
    intro q hq
    exact step_page_init_mono d _ q (h q hq)
  | set_switch_port_visible b =>
    intro q hq
    exact step_page_init_mono d _ q (h q hq)
  | set_switch_port_always_avail b =>
    intro q hq
    exact step_page_init_mono d _ q (h q hq)
  | set_entry_port_name s =>
    intro q hq
    exact step_page_init_mono d _ q (h q hq)
  | set_entry_dev_name s =>
    intro q hq
    exact step_page_init_mono d _ q (h q hq)
  | select_pref_profile s =>
    intro q hq
    exact step_page_init_mono d _ q (h q hq)

theorem run_displayed_invariant (acts : List Action) :
    ∀ d : Dialog, (∀ q ∈ d.displayed, page_initialised d q = true) →
      ∀ q ∈ (run d acts).displayed, page_initialised (run d acts) q = true := by
  induction acts with
  | nil => intro d h; exact h
  | cons a rest ih => intro d h; exact ih (step d a) (step_displayed_invariant d a h)

/-- C1: toggling the Show inputs switch on an already-initialised
GeneralPage writes the current active state of the switch to the config
key show_inputs and then calls on_refresh; symmetrically for Show outputs
and show_outputs.  The trace equation records the config write strictly
before the refresh call. -/
theorem toggle_writes_config_then_refreshes (d : Dialog) (b : Bool)
    (h : d.general.is_initialised = true) :
    ((step d (Action.set_switch_inputs b)).config = d.config.set "show_inputs" b ∧
     (step d (Action.set_switch_inputs b)).trace
       = d.trace ++ [Event.configWrite "show_inputs" b, Event.refresh]) ∧
    ((step d (Action.set_switch_outputs b)).config = d.config.set "show_outputs" b ∧
     (step d (Action.set_switch_outputs b)).trace
       = d.trace ++ [Event.configWrite "show_outputs" b, Event.refresh]) := by
  refine ⟨⟨?_, ?_⟩, ⟨?_, ?_⟩⟩ <;>
    simp [step, switch_inputs_set_active, on_switch_inputs_set,
      switch_outputs_set_active, on_switch_outputs_set, h]

/-- Witness for C1 at a concrete initialised dialog. -/
theorem toggle_writes_config_then_refreshes_witness :
    sampleDialogInit.general.is_initialised = true ∧
    (((step sampleDialogInit (Action.set_switch_inputs true)).config
        = sampleDialogInit.config.set "show_inputs" true ∧
      (step sampleDialogInit (Action.set_switch_inputs true)).trace
        = sampleDialogInit.trace
            ++ [Event.configWrite "show_inputs" true, Event.refresh]) ∧
     ((step sampleDialogInit (Action.set_switch_outputs true)).config
        = sampleDialogInit.config.set "show_outputs" true ∧
      (step sampleDialogInit (Action.set_switch_outputs true)).trace
        = sampleDialogInit.trace
            ++ [Event.configWrite "show_outputs" true, Event.refresh])) :=
  ⟨by decide, toggle_writes_config_then_refreshes sampleDialogInit true (by decide)⟩

/-- C2: every config write the dialog can ever make targets show_inputs or
show_outputs, over any interaction sequence; and interacting with the
per-port controls (visibility switch, custom-name entry, always-available
switch, preferred-profile dropdown) or the device custom-name entry
leaves the config object and the effect trace unchanged. -/
theorem prefs_only_writes_show_keys (d : Dialog) (acts : List Action)
    (b : Bool) (s : String) (os : Option String)
    (h : ∀ e ∈ d.trace, writeKeyOK e = true) :
    (∀ e ∈ (run d acts).trace, writeKeyOK e = true) ∧
    ((step d (Action.set_switch_port_visible b)).config = d.config ∧
     (step d (Action.set_switch_port_visible b)).trace = d.trace) ∧
    ((step d (Action.set_switch_port_always_avail b)).config = d.config ∧
     (step d (Action.set_switch_port_always_avail b)).trace = d.trace) ∧
    ((step d (Action.set_entry_port_name s)).config = d.config ∧
     (step d (Action.set_entry_port_name s)).trace = d.trace) ∧
    ((step d (Action.set_entry_dev_name s)).config = d.config ∧
     (step d (Action.set_entry_dev_name s)).trace = d.trace) ∧
    ((step d (Action.select_pref_profile os)).config = d.config ∧
     (step d (Action.select_pref_profile os)).trace = d.trace) :=
  ⟨run_trace_writeKeyOK acts d h, ⟨rfl, rfl⟩, ⟨rfl, rfl⟩, ⟨rfl, rfl⟩,
   ⟨rfl, rfl⟩, ⟨rfl, rfl⟩⟩

/-- Witness for C2 at a concrete dialog and interaction sequence. -/
theorem prefs_only_writes_show_keys_witness :
    (∀ e ∈ sampleDialog.trace, writeKeyOK e = true) ∧
    ((∀ e ∈ (run sampleDialog sampleActs).trace, writeKeyOK e = true) ∧
     ((step sampleDialog (Action.set_switch_port_visible true)).config
        = sampleDialog.config ∧
      (step sampleDialog (Action.set_switch_port_visible true)).trace
        = sampleDialog.trace) ∧
     ((step sampleDialog (Action.set_switch_port_always_avail true)).config
        = sampleDialog.config ∧
      (step sampleDialog (Action.set_switch_port_always_avail true)).trace
        = sampleDialog.trace) ∧
     ((step sampleDialog (Action.set_entry_port_name "Mic")).config
        = sampleDialog.config ∧
      (step sampleDialog (Action.set_entry_port_name "Mic")).trace
        = sampleDialog.trace) ∧
     ((step sampleDialog (Action.set_entry_dev_name "Mic")).config
        = sampleDialog.config ∧
      (step sampleDialog (Action.set_entry_dev_name "Mic")).trace
        = sampleDialog.trace) ∧
     ((step sampleDialog (Action.select_pref_profile none)).config
        = sampleDialog.config ∧
      (step sampleDialog (Action.select_pref_profile none)).trace
        = sampleDialog.trace)) :=
  ⟨by decide,
   prefs_only_writes_show_keys sampleDialog sampleActs true "Mic" none (by decide)⟩

/-- C3: no interaction sequence ever adds to, removes from or mutates
the externally-owned device model: `indicator.cards` and every ports
mapping inside it are unchanged by running the dialog. -/
theorem prefs_never_mutates_cards (d : Dialog) (acts : List Action) :
    (run d acts).cards = d.cards ∧
    (run d acts).cards.map (fun ic => ic.2.ports)
      = d.cards.map (fun ic => ic.2.ports) :=
  ⟨run_cards_eq acts d, by rw [run_cards_eq acts d]⟩

/-- C4: the notebook holds exactly two pages, the general page first and
the devices page second, each labelled by the label widget built from its
page title. -/
theorem notebook_has_two_labelled_pages :
    MainNotebook.new.pages.length = 2 ∧
    MainNotebook.new.pages
      = [(PageId.general, get_label_widget PageId.general),
         (PageId.devices, get_label_widget PageId.devices)] ∧
    get_label_widget PageId.general = GeneralPage.title ∧
    get_label_widget PageId.devices = DevicesPage.title :=
  ⟨rfl, rfl, rfl, rfl⟩

/-- C5: when the general page initialises it reads show_inputs and
show_outputs from the config, each defaulting to true when the key is
unset, and sets the two switches to those values. -/
theorem general_initialise_reads_config (d : Dialog)
    (h : d.general.is_initialised = false) :
    (GeneralPage.initialise d).general.switch_inputs
      = d.config.get "show_inputs" true ∧
    (GeneralPage.initialise d).general.switch_outputs
      = d.config.get "show_outputs" true ∧
    (d.config.entries.find? (fun e => e.1 == "show_inputs") = none →
      (GeneralPage.initialise d).general.switch_inputs = true) ∧
    (d.config.entries.find? (fun e => e.1 == "show_outputs") = none →
      (GeneralPage.initialise d).general.switch_outputs = true) := by
  rw [general_initialise_of_not_init d h]
  refine ⟨rfl, rfl, ?_, ?_⟩
  · intro hf; simp [Config.get, hf]
  · intro hf; simp [Config.get, hf]

/-- Witness for C5 at a dialog whose config is empty, so both defaults
apply. -/
theorem general_initialise_reads_config_witness :
    emptyDialog.general.is_initialised = false ∧
    ((GeneralPage.initialise emptyDialog).general.switch_inputs
       = emptyDialog.config.get "show_inputs" true ∧
     (GeneralPage.initialise emptyDialog).general.switch_outputs
       = emptyDialog.config.get "show_outputs" true ∧
     (emptyDialog.config.entries.find? (fun e => e.1 == "show_inputs") = none →
       (GeneralPage.initialise emptyDialog).general.switch_inputs = true) ∧
     (emptyDialog.config.entries.find? (fun e => e.1 == "show_outputs") = none →
       (GeneralPage.initialise emptyDialog).general.switch_outputs = true)) :=
  ⟨by decide, general_initialise_reads_config emptyDialog (by decide)⟩

/-- C6: initialising the devices page appends exactly one row per entry of
`indicator.cards`, in iteration order; each row carries its card and its
labels show the display name and the raw name of the card. -/
theorem devices_initialise_one_row_per_card (p : DevicesPage)
    (cards : List (Nat × Card)) :
    (p.initialise cards).listbox_devices
      = p.listbox_devices ++ cards.map (fun ic => mkDevRow ic.2) ∧
    (p.initialise cards).listbox_devices.length
      = p.listbox_devices.length + cards.length ∧
    ((p.initialise cards).listbox_devices.drop p.listbox_devices.length).map
        DevRow.card
      = cards.map Prod.snd := by
  refine ⟨devices_initialise_listbox p cards, ?_, ?_⟩
  · rw [devices_initialise_listbox p cards]; simp
  · rw [devices_initialise_listbox p cards, List.drop_left, List.map_map]
    rfl

/-- C7: the switch-page handler records the shown page and runs its
on_activate, so along any interaction sequence every page ever displayed
is initialised. -/
theorem switch_page_activates_shown_page (d : Dialog) (acts : List Action)
    (p : PageId) (h : ∀ q ∈ d.displayed, page_initialised d q = true) :
    page_initialised (step d (Action.switch_page p)) p = true ∧
    (step d (Action.switch_page p)).displayed = d.displayed ++ [p] ∧
    (∀ q ∈ (run d acts).displayed, page_initialised (run d acts) q = true) :=
  ⟨(on_switch_page_frame d p).2.2.2.2, (on_switch_page_frame d p).2.2.2.1,
   run_displayed_invariant acts d h⟩

/-- Witness for C7 at a fresh dialog and a concrete interaction
sequence. -/
theorem switch_page_activates_shown_page_witness :
    (∀ q ∈ sampleDialog.displayed, page_initialised sampleDialog q = true) ∧
    (page_initialised (step sampleDialog (Action.switch_page PageId.devices))
        PageId.devices = true ∧
     (step sampleDialog (Action.switch_page PageId.devices)).displayed
       = sampleDialog.displayed ++ [PageId.devices] ∧
     (∀ q ∈ (run sampleDialog sampleActs).displayed,
        page_initialised (run sampleDialog sampleActs) q = true)) :=
  ⟨by decide,
   switch_page_activates_shown_page sampleDialog sampleActs PageId.devices
     (by decide)⟩

/-- C8: on_activate is idempotent after the first call on both pages:
one activation sets is_initialised, and any further activations are the
identity, so initialise runs at most once. -/
theorem on_activate_idempotent (d : Dialog) (p : DevicesPage)
    (cards : List (Nat × Card)) (n : ℕ) :
    (GeneralPage.on_activate d).general.is_initialised = true ∧
    GeneralPage.on_activate^[n + 1] d = GeneralPage.on_activate d ∧
    (p.on_activate cards).is_initialised = true ∧
    (fun q => DevicesPage.on_activate q cards)^[n + 1] p
      = p.on_activate cards := by
  refine ⟨general_on_activate_init d, ?_, devices_on_activate_init p cards, ?_⟩
  · exact iterate_succ_of_idem _
      (fun y => general_on_activate_of_init _ (general_on_activate_init y)) d n
  · exact iterate_succ_of_idem _
      (fun y => devices_on_activate_of_init _ _ (devices_on_activate_init y cards)) p n

/-- C9: while the general page is not initialised, both state-set handlers
return immediately without touching the config or calling on_refresh; in
particular the set_active calls inside initialise leave the config and the
effect trace unchanged. -/
theorem uninitialised_handlers_write_nothing (d : Dialog) (b : Bool)
    (h : d.general.is_initialised = false) :
    on_switch_inputs_set d = d ∧
    on_switch_outputs_set d = d ∧
    (switch_inputs_set_active d b).config = d.config ∧
    (switch_inputs_set_active d b).trace = d.trace ∧
    (switch_outputs_set_active d b).config = d.config ∧
    (switch_outputs_set_active d b).trace = d.trace ∧
    (GeneralPage.initialise d).config = d.config ∧
    (GeneralPage.initialise d).trace = d.trace := by
  refine ⟨on_switch_inputs_set_of_not_init d h,
    on_switch_outputs_set_of_not_init d h, ?_, ?_, ?_, ?_, ?_, ?_⟩
  · rw [switch_inputs_set_active_of_not_init d b h]
  · rw [switch_inputs_set_active_of_not_init d b h]
  · rw [switch_outputs_set_active_of_not_init d b h]
  · rw [switch_outputs_set_active_of_not_init d b h]
  · rw [general_initialise_of_not_init d h]
  · rw [general_initialise_of_not_init d h]

/-- Witness for C9 at a freshly built dialog, whose general page is not
yet initialised. -/
theorem uninitialised_handlers_write_nothing_witness :
    sampleDialog.general.is_initialised = false ∧
    (on_switch_inputs_set sampleDialog = sampleDialog ∧
     on_switch_outputs_set sampleDialog = sampleDialog ∧
     (switch_inputs_set_active sampleDialog true).config = sampleDialog.config ∧
     (switch_inputs_set_active sampleDialog true).trace = sampleDialog.trace ∧
     (switch_outputs_set_active sampleDialog true).config = sampleDialog.config ∧
     (switch_outputs_set_active sampleDialog true).trace = sampleDialog.trace ∧
     (GeneralPage.initialise sampleDialog).config = sampleDialog.config ∧
     (GeneralPage.initialise sampleDialog).trace = sampleDialog.trace) :=
  ⟨by decide, uninitialised_handlers_write_nothing sampleDialog true (by decide)⟩

/-- C10: after either update routine, exactly one of the placeholder label
and its props box is visible, the placeholder exactly when no row is
selected; update_dev_props_widgets empties the ports list box and, when a
device row is selected, repopulates it with one row per port of that card
and puts the card display name in the name entry. -/
theorem update_props_widgets_visibility (p : DevicesPage) :
    ((p.update_dev_props_widgets).lbl_dev_props_placeholder_visible
       = !(p.update_dev_props_widgets).box_dev_props_visible) ∧
    ((p.update_dev_props_widgets).lbl_dev_props_placeholder_visible = true
       ↔ p.get_selected_dev_row = none) ∧
    (p.get_selected_dev_row = none →
      (p.update_dev_props_widgets).listbox_ports = []) ∧
    (∀ r : DevRow, p.get_selected_dev_row = some r →
      (p.update_dev_props_widgets).listbox_ports
        = r.card.ports.map (fun np => mkPortRow np.2) ∧
      (p.update_dev_props_widgets).entry_dev_name = r.card.display_name) ∧
    ((p.update_port_props_widgets).lbl_port_props_placeholder_visible
       = !(p.update_port_props_widgets).box_port_props_visible) ∧
    ((p.update_port_props_widgets).lbl_port_props_placeholder_visible = true
       ↔ p.get_selected_port_row = none) := by
  cases hr : p.get_selected_dev_row <;> cases hu : p.get_selected_port_row <;>
    simp [DevicesPage.update_dev_props_widgets,
      DevicesPage.update_port_props_widgets, hr, hu]

/-- Witness for C10 at a devices page with a selected device row: the
ports list box is repopulated from the selected card and the name entry
shows its display name. -/
theorem update_props_widgets_visibility_witness :
    sampleDevPageSel.get_selected_dev_row = some sampleDevRow ∧
    ((sampleDevPageSel.update_dev_props_widgets).listbox_ports
       = sampleDevRow.card.ports.map (fun np => mkPortRow np.2) ∧
     (sampleDevPageSel.update_dev_props_widgets).entry_dev_name
       = sampleDevRow.card.display_name) :=
  ⟨by decide,
   (update_props_widgets_visibility sampleDevPageSel).2.2.2.1 sampleDevRow
     (by decide)⟩

end SoundSwitcher
